import Mathlib

/-!
Shallow embedding of `nova/scheduler/driver.py` (the scheduler base class):
`Scheduler.service_is_up`, `Scheduler.hosts_up`,
`Scheduler.schedule_live_migration` and `Scheduler.has_enough_resource`.

Registry reads (`db.instance_get`, `db.host_get_by_name`,
`db.service_get_all_by_topic`, `db.instance_get_all_by_host`,
`db.volume_get_all_by_instance`, `db.volume_update`) and the rpc call are
modelled as fields of an immutable environment `Env`; timestamps are `Int`
seconds; mutation requests issued by the code (`db.instance_set_state`,
`db.volume_update`) are collected in an explicit log.
-/

namespace Nova

/-- A row of the services table: `{host, topic, updated_at, created_at}`.
`updated_at` is nullable in the DB, hence `Option`. -/
structure Service where
  host : String
  topic : String
  updated_at : Option Int
  created_at : Int
  deriving DecidableEq, Repr

/-- A row of the hosts table.  `cpu_info` is a nullable text column; the
code checks `str != type(cpuinfo)`, i.e. that the value is a string, which
we model as the option being `some`. -/
structure Host where
  name : String
  vcpus : Int
  memory_mb : Int
  local_gb : Int
  hypervisor_type : String
  hypervisor_version : Int
  cpu_info : Option String
  deriving DecidableEq, Repr

/-- A row of the instances table (the fields the scheduler reads). -/
structure Instance where
  id : Nat
  hostname : String
  host : String
  vcpus : Int
  memory_mb : Int
  local_gb : Int
  state : Nat
  state_description : String
  launched_on : String
  deriving DecidableEq, Repr

/-- A row of the volumes table (the fields the scheduler reads). -/
structure Volume where
  id : Nat
  instance_id : Nat
  status : String
  deriving DecidableEq, Repr

/-- The constant `nova.compute.power_state.RUNNING`. -/
def power_state.RUNNING : Nat := 1

/-- The constant `nova.compute.power_state.PAUSED`. -/
def power_state.PAUSED : Nat := 3

/-- The errors the scheduler code can raise, one constructor per `raise`
site, each carrying exactly the data interpolated into its message.
`nameError` models the `NameError` triggered in the `rpc.RemoteError`
handler, whose logging statement reads the undefined name `ret`.
`indexError` models `service[0]` on an empty list. -/
inductive Err where
  | instanceNotFound (instance_id : Nat)
  | notRunning (ec2_id : String)
  | hostNotFound (name : String)
  | sameHost (dest ec2_id : String)
  | notComputeNode (dest : String)
  | destNotAlive (dest : String)
  | differentHypervisorType (otype dtype : String)
  | olderHypervisorVersion (oversion dversion : Int)
  | missingCpuInfo (orighost : String)
  | nameError (n : String)
  | indexError
  | notEnoughResource (dest ec2_id : String)
  deriving DecidableEq, Repr

/-- The string payloads carried by an error value (used to ask whether an
error mentions a given identifier or cause). -/
def Err.payloadStrings : Err → List String
  | .instanceNotFound _ => []
  | .notRunning e => [e]
  | .hostNotFound n => [n]
  | .sameHost d e => [d, e]
  | .notComputeNode d => [d]
  | .destNotAlive d => [d]
  | .differentHypervisorType o d => [o, d]
  | .olderHypervisorVersion _ _ => []
  | .missingCpuInfo o => [o]
  | .nameError n => [n]
  | .indexError => []
  | .notEnoughResource d e => [d, e]

/-- A mutation request the scheduler issues against the registry. -/
inductive Mut where
  | setInstanceState (instance_id : Nat) (state : Nat) (description : String)
  | volumeUpdateStatus (volume_id : Nat) (status : String)
  deriving DecidableEq, Repr

/-- The external world as the scheduler sees it for one request: the
current clock, the `service_down_time` flag, one read-only snapshot of the
registry, and the outcome of the remote `compare_cpu` call (`Except.error`
is an `rpc.RemoteError` carrying its cause). `volume_update` raises
`NotFound` exactly when `volumeExists` is false for the volume's id. -/
structure Env where
  now : Int
  service_down_time : Int
  instances : Nat → Option Instance
  hosts : String → Option Host
  servicesByTopic : String → List Service
  instancesByHost : String → List Instance
  volumesByInstance : Nat → List Volume
  volumeExists : Nat → Bool
  compareCpu : String → String → Except String Unit

/-- The line `last_heartbeat = service['updated_at'] or service['created_at']`:
Python's `or` falls back to `created_at` only when `updated_at` is `None`. -/
def last_heartbeat (s : Service) : Int :=
  match s.updated_at with
  | some t => t
  | none => s.created_at

/-- Embeds `Scheduler.service_is_up`:
`elapsed < timedelta(seconds=service_down_time)`, a strict comparison. -/
def service_is_up (now timeout : Int) (s : Service) : Bool :=
  now - last_heartbeat s < timeout

/-- Embeds `Scheduler.hosts_up`: the list comprehension
`[service.host for service in services if self.service_is_up(service)]`. -/
def hosts_up (env : Env) (topic : String) : List String :=
  (env.servicesByTopic topic).filterMap
    (fun s => if service_is_up env.now env.service_down_time s then some s.host else none)

/-- The two hypervisor checks of `schedule_live_migration` (type equality,
then version monotonicity), on the already-loaded origin and destination
host rows. -/
def hypervisorChecks (ohost_ref dhost_ref : Host) : Except Err Unit :=
  if ohost_ref.hypervisor_type ≠ dhost_ref.hypervisor_type then
    .error (.differentHypervisorType ohost_ref.hypervisor_type dhost_ref.hypervisor_type)
  else if ohost_ref.hypervisor_version > dhost_ref.hypervisor_version then
    .error (.olderHypervisorVersion ohost_ref.hypervisor_version dhost_ref.hypervisor_version)
  else .ok ()

/-- The precondition sequence of `schedule_live_migration`, from
`db.instance_get` down to the `cpu_info` shape check, in source order.
On success it returns the data the remainder of the function uses. -/
def preChecks (env : Env) (instance_id : Nat) (dest : String) :
    Except Err (Instance × String × Host × String) :=
  match env.instances instance_id with
  | none => .error (.instanceNotFound instance_id)
  | some instance_ref =>
    if power_state.RUNNING ≠ instance_ref.state ∨ "running" ≠ instance_ref.state_description then
      .error (.notRunning instance_ref.hostname)
    else
      match env.hosts dest with
      | none => .error (.hostNotFound dest)
      | some dhost_ref =>
        if dest = instance_ref.host then .error (.sameHost dest instance_ref.hostname)
        else if ¬ ((env.servicesByTopic "compute").map Service.host).contains dest then
          .error (.notComputeNode dest)
        else
          match ((env.servicesByTopic "compute").filter (fun s => s.host == dest)).head? with
          | none => .error .indexError
          | some service =>
            if ¬ service_is_up env.now env.service_down_time service then
              .error (.destNotAlive dest)
            else
              match env.hosts instance_ref.launched_on with
              | none => .error (.hostNotFound instance_ref.launched_on)
              | some ohost_ref =>
                match hypervisorChecks ohost_ref dhost_ref with
                | .error e => .error e
                | .ok () =>
                  match ohost_ref.cpu_info with
                  | none => .error (.missingCpuInfo instance_ref.launched_on)
                  | some cpuinfo => .ok (instance_ref, instance_ref.host, dhost_ref, cpuinfo)

/-- Embeds `Scheduler.has_enough_resource`: re-reads the instance and the host,
subtracts the resources of every instance placed on `dest` from the host
totals, and fails unless each remainder strictly exceeds the demand. -/
def has_enough_resource (env : Env) (instance_id : Nat) (dest : String) :
    Except Err Unit :=
  match env.instances instance_id with
  | none => .error (.instanceNotFound instance_id)
  | some instance_ref =>
    match env.hosts dest with
    | none => .error (.hostNotFound dest)
    | some host_ref =>
      if (env.instancesByHost dest).foldl (fun acc i => acc - i.vcpus) host_ref.vcpus
            ≤ instance_ref.vcpus ∨
          (env.instancesByHost dest).foldl (fun acc i => acc - i.memory_mb) host_ref.memory_mb
            ≤ instance_ref.memory_mb ∨
          (env.instancesByHost dest).foldl (fun acc i => acc - i.local_gb) host_ref.local_gb
            ≤ instance_ref.local_gb then
        .error (.notEnoughResource dest instance_ref.hostname)
      else .ok ()

/-- The volume loop of the commit step.  The source wraps the WHOLE `for`
loop in one `try`, with `except exception.NotFound: pass` outside it: a
`NotFound` from `db.volume_update` therefore aborts the iteration (no
further volume is updated) and is then swallowed. -/
def volumeLoop (env : Env) : List Volume → List Mut
  | [] => []
  | vol :: rest =>
    if env.volumeExists vol.id then
      Mut.volumeUpdateStatus vol.id "migrating" :: volumeLoop env rest
    else []

/-- Embeds `Scheduler.schedule_live_migration`: the precondition chain, the remote
`compare_cpu` probe, the capacity check, then the commit (instance state to
`PAUSED`/`"migrating"`, best-effort volume loop) returning `src`.  The
result pairs the raised error or returned host with the log of mutation
requests issued.  In the `rpc.RemoteError` handler the source evaluates
`logging.error(_(msg) % (dest, src, ec2_id, ret))` where `ret` is an
undefined name, so a `NameError` propagates instead of the re-raise. -/
def schedule_live_migration (env : Env) (instance_id : Nat) (dest : String) :
    Except Err String × List Mut :=
  match preChecks env instance_id dest with
  | .error e => (.error e, [])
  | .ok (_instance_ref, src, _dhost_ref, cpuinfo) =>
    match env.compareCpu dest cpuinfo with
    | .error _cause => (.error (.nameError "ret"), [])
    | .ok () =>
      match has_enough_resource env instance_id dest with
      | .error e => (.error e, [])
      | .ok () =>
        (.ok src,
         Mut.setInstanceState instance_id power_state.PAUSED "migrating"
           :: volumeLoop env (env.volumesByInstance instance_id))

/-! Concrete registry snapshots used by witnesses and counterexamples. -/

/-- A running instance placed on host `"src"`, launched on `"orig"`. -/
def instGood : Instance :=
  ⟨1, "i-1", "src", 1, 128, 10, power_state.RUNNING, "running", "orig"⟩

/-- A destination host compatible with `ohostGood`. -/
def dhostGood : Host := ⟨"dst", 8, 1024, 100, "qemu", 12, some "cpu-xml"⟩

/-- The origin host of `instGood`. -/
def ohostGood : Host := ⟨"orig", 8, 1024, 100, "qemu", 10, some "cpu-xml"⟩

/-- The current host of `instGood`. -/
def srcHostGood : Host := ⟨"src", 8, 1024, 100, "qemu", 10, some "cpu-xml"⟩

/-- A registered host that runs no compute service. -/
def otherHost : Host := ⟨"other", 8, 1024, 100, "qemu", 12, some "cpu-xml"⟩

/-- The compute service on `"dst"`, heartbeat fresh at `now = 100`. -/
def svcDst : Service := ⟨"dst", "compute", some 100, 0⟩

/-- The compute service on `"src"`, heartbeat fresh at `now = 100`. -/
def svcSrc : Service := ⟨"src", "compute", some 100, 0⟩

/-- First volume attached to instance 1. -/
def vol7 : Volume := ⟨7, 1, "in-use"⟩

/-- Second volume attached to instance 1. -/
def vol8 : Volume := ⟨8, 1, "in-use"⟩

/-- A snapshot on which every check of the live-migration chain passes for
instance 1 and destination `"dst"`. -/
def envGood : Env where
  now := 100
  service_down_time := 60
  instances := fun i => if i = 1 then some instGood else none
  hosts := fun n =>
    if n = "dst" then some dhostGood
    else if n = "orig" then some ohostGood
    else if n = "src" then some srcHostGood
    else if n = "other" then some otherHost
    else none
  servicesByTopic := fun t => if t = "compute" then [svcDst, svcSrc] else []
  instancesByHost := fun _ => []
  volumesByInstance := fun i => if i = 1 then [vol7, vol8] else []
  volumeExists := fun _ => true
  compareCpu := fun _ _ => .ok ()

/-- Instance 1 in the shutoff state (spec scenario 3). -/
def instShut : Instance :=
  { instGood with state := 5, state_description := "shutoff" }

/-- A good snapshot except that instance 1 is shut off. -/
def envNotRunning : Env :=
  { envGood with instances := fun i => if i = 1 then some instShut else none }

/-- The compute service on `"dst"` with a stale heartbeat. -/
def svcDstStale : Service := ⟨"dst", "compute", some 0, 0⟩

/-- A good snapshot except that the destination compute service's
heartbeat is stale. -/
def envDown : Env :=
  { envGood with
    servicesByTopic := fun t => if t = "compute" then [svcDstStale, svcSrc] else [] }

/-- A good snapshot except that the origin host runs a different
hypervisor type. -/
def envXen : Env :=
  { envGood with
    hosts := fun n =>
      if n = "orig" then some { ohostGood with hypervisor_type := "xen" }
      else envGood.hosts n }

/-- A good snapshot except that the origin hypervisor version is newer
than the destination's. -/
def envNewer : Env :=
  { envGood with
    hosts := fun n =>
      if n = "orig" then some { ohostGood with hypervisor_version := 20 }
      else envGood.hosts n }

/-- A good snapshot except that the origin host's `cpu_info` is not a
string. -/
def envNoCpu : Env :=
  { envGood with
    hosts := fun n =>
      if n = "orig" then some { ohostGood with cpu_info := none }
      else envGood.hosts n }

/-- A good snapshot in which volume 7 is gone from the volumes table, so
`volume_update` on it raises `NotFound`. -/
def envVol7Gone : Env :=
  { envGood with volumeExists := fun v => decide (v ≠ 7) }

/-- A good snapshot in which volume 8 is gone from the volumes table. -/
def envVol8Gone : Env :=
  { envGood with volumeExists := fun v => decide (v ≠ 8) }

/-- A good snapshot whose only attached volume is gone from the volumes
table. -/
def envOnlyVolGone : Env :=
  { envGood with
    volumesByInstance := fun i => if i = 1 then [vol7] else []
    volumeExists := fun _ => false }

/-- A good snapshot in which the remote `compare_cpu` call fails with an
`rpc.RemoteError` whose cause is `"boom"`. -/
def envRpcFail : Env :=
  { envGood with compareCpu := fun _ _ => .error "boom" }

/-! Helper lemmas (shared, not tied to a single claim). -/

/-- A comprehension with a guard is the map of the filter. -/
lemma filterMap_guard_eq_map_filter (l : List Service) (p : Service → Bool) :
    l.filterMap (fun s => if p s then some s.host else none)
      = (l.filter p).map Service.host := by
  induction l with
  | nil => rfl
  | cons a t ih =>
    cases hp : p a <;>
      simp [List.filterMap_cons, List.filter_cons, hp, ih]

/-- Folding repeated subtraction equals subtracting the sum. -/
lemma foldl_sub_eq_sub_sum (f : Instance → Int) (init : Int) (l : List Instance) :
    l.foldl (fun acc i => acc - f i) init = init - (l.map f).sum := by
  induction l generalizing init with
  | nil => simp
  | cons a t ih =>
    rw [List.foldl_cons, ih, List.map_cons, List.sum_cons]
    ring

/-- If the membership check on the mapped host names succeeds, the list of
services filtered to the destination host is non-empty. -/
lemma head_isSome_of_contains (l : List Service) (d : String)
    (h : (l.map Service.host).contains d = true) :
    ((l.filter (fun s => s.host == d)).head?).isSome := by
  induction l with
  | nil => simp at h
  | cons a t ih =>
    simp only [List.map_cons, List.contains_cons, Bool.or_eq_true, beq_iff_eq] at h
    rw [List.filter_cons]
    by_cases ha : a.host = d
    · simp [ha]
    · rw [if_neg (by simp [ha])]
      apply ih
      rcases h with h | h
      · exact absurd h.symm ha
      · exact h

/-- The hypervisor checks never produce the index error. -/
lemma hypervisorChecks_ne_indexError (o d : Host) :
    hypervisorChecks o d ≠ .error .indexError := by
  intro h
  unfold hypervisorChecks at h
  repeat' split at h
  all_goals simp at h

/-- The capacity check never produces the index error. -/
lemma has_enough_resource_ne_indexError (env : Env) (iid : Nat) (dest : String) :
    has_enough_resource env iid dest ≠ .error .indexError := by
  intro h
  unfold has_enough_resource at h
  repeat' split at h
  all_goals simp at h

/-- The precondition sequence never produces the index error: the
`service[0]` selection is only reached when the membership check has
already established that a matching service exists. -/
lemma preChecks_ne_indexError (env : Env) (iid : Nat) (dest : String) :
    preChecks env iid dest ≠ .error .indexError := by
  intro h
  unfold preChecks at h
  split at h
  · simp at h
  · split at h
    · simp at h
    · split at h
      · simp at h
      · split at h
        · simp at h
        · split at h
          · simp at h
          next hcontains =>
            split at h
            next hhead =>
              exact absurd
                (head_isSome_of_contains (env.servicesByTopic "compute") dest
                  (not_not.mp hcontains))
                (by rw [hhead]; simp)
            next service hhead =>
              split at h
              · simp at h
              · split at h
                · simp at h
                · split at h
                  next e hhc =>
                    apply hypervisorChecks_ne_indexError _ _
                    rw [hhc]
                    injection h with h1
                    rw [h1]
                  · split at h <;> simp at h

/-- Propagation: an error from the precondition sequence is the result of
the whole operation, with an empty mutation log. -/
lemma slm_of_preChecks_error (env : Env) (iid : Nat) (dest : String) (e : Err)
    (h : preChecks env iid dest = .error e) :
    schedule_live_migration env iid dest = (.error e, []) := by
  unfold schedule_live_migration
  rw [h]

/-- Propagation: a remote error from the compatibility probe surfaces as
the name error from the handler's logging slip, with an empty log. -/
lemma slm_of_rpc_error (env : Env) (iid : Nat) (dest : String)
    (inst : Instance) (src : String) (dh : Host) (ci : String) (c : String)
    (hpre : preChecks env iid dest = .ok (inst, src, dh, ci))
    (hrpc : env.compareCpu dest ci = .error c) :
    schedule_live_migration env iid dest = (.error (.nameError "ret"), []) := by
  unfold schedule_live_migration
  rw [hpre]
  dsimp only
  rw [hrpc]

/-- Propagation: a capacity failure after a successful probe surfaces
as-is, with an empty log. -/
lemma slm_of_cap_error (env : Env) (iid : Nat) (dest : String)
    (inst : Instance) (src : String) (dh : Host) (ci : String) (e : Err)
    (hpre : preChecks env iid dest = .ok (inst, src, dh, ci))
    (hrpc : env.compareCpu dest ci = .ok ())
    (hcap : has_enough_resource env iid dest = .error e) :
    schedule_live_migration env iid dest = (.error e, []) := by
  unfold schedule_live_migration
  rw [hpre]
  dsimp only
  rw [hrpc]
  dsimp only
  rw [hcap]

/-- When every check passes the operation commits: it requests the
instance-state change and runs the volume loop, and returns `src`. -/
lemma slm_of_all_ok (env : Env) (iid : Nat) (dest : String)
    (inst : Instance) (src : String) (dh : Host) (ci : String)
    (hpre : preChecks env iid dest = .ok (inst, src, dh, ci))
    (hrpc : env.compareCpu dest ci = .ok ())
    (hcap : has_enough_resource env iid dest = .ok ()) :
    schedule_live_migration env iid dest =
      (.ok src,
       Mut.setInstanceState iid power_state.PAUSED "migrating"
         :: volumeLoop env (env.volumesByInstance iid)) := by
  unfold schedule_live_migration
  rw [hpre]
  dsimp only
  rw [hrpc]
  dsimp only
  rw [hcap]

/-- C5 counterexample: the claim computes the heartbeat age from
`max(updated_at, created_at)`, but the code computes it from
`updated_at or created_at`, which prefers `updated_at` even when it is
older than `created_at`.  For a service with `updated_at = 0`,
`created_at = 50`, at `now = 60` with timeout `30`, the claim's formula
says up (age 10 < 30) while the code says down (age 60). -/
theorem service_is_up_max_claim_false :
    ¬ (service_is_up 60 30 ⟨"h", "compute", some 0, 50⟩ = true ↔
       (60 : Int) - max 0 50 < 30) := by
  decide

/-- C5 (amended): `isUp` returns true iff
`now - (updated_at if present, else created_at) < timeout`; a never-updated
record uses `created_at`; the comparison is strict, so at age exactly equal
to the timeout it returns false. -/
theorem service_is_up_iff (now timeout : Int) (s : Service) :
    (service_is_up now timeout s = true ↔ now - last_heartbeat s < timeout) ∧
    (s.updated_at = none → last_heartbeat s = s.created_at) ∧
    (now - last_heartbeat s = timeout → service_is_up now timeout s = false) := by
  refine ⟨?_, ?_, ?_⟩
  · simp [service_is_up]
  · intro h
    simp [last_heartbeat, h]
  · intro h
    simp [service_is_up, h]

/-- Concrete instantiation of `service_is_up_iff`: a never-updated record
whose age is exactly the timeout is reported down. -/
theorem service_is_up_iff_witness :
    service_is_up 60 60 ⟨"h", "compute", none, 0⟩ = false :=
  (service_is_up_iff 60 60 ⟨"h", "compute", none, 0⟩).2.2 (by decide)

/-- C9: `hosts_up` returns exactly the host identifiers of the services the
registry lists for the topic whose `service_is_up` is true — the map of the
filter, preserving registry order — and membership is exact: no extras, no
omissions. -/
theorem hosts_up_exact (env : Env) (topic : String) :
    hosts_up env topic =
      ((env.servicesByTopic topic).filter
        (fun s => service_is_up env.now env.service_down_time s)).map Service.host ∧
    ∀ h, h ∈ hosts_up env topic ↔
      ∃ s, s ∈ env.servicesByTopic topic ∧
        service_is_up env.now env.service_down_time s = true ∧ s.host = h := by
  have base := filterMap_guard_eq_map_filter (env.servicesByTopic topic)
    (fun s => service_is_up env.now env.service_down_time s)
  refine ⟨base, ?_⟩
  intro h
  rw [hosts_up, base]
  simp [List.mem_map, List.mem_filter, and_assoc]

/-- C8: the hypervisor compatibility checks accept exactly equal type with
destination version at least the origin's, and reject a type mismatch and a
strictly older destination with the corresponding error. -/
theorem hypervisor_compat (o d : Host) :
    (hypervisorChecks o d = .ok () ↔
      o.hypervisor_type = d.hypervisor_type ∧
        o.hypervisor_version ≤ d.hypervisor_version) ∧
    (o.hypervisor_type ≠ d.hypervisor_type →
      hypervisorChecks o d =
        .error (.differentHypervisorType o.hypervisor_type d.hypervisor_type)) ∧
    (o.hypervisor_type = d.hypervisor_type →
      d.hypervisor_version < o.hypervisor_version →
      hypervisorChecks o d =
        .error (.olderHypervisorVersion o.hypervisor_version d.hypervisor_version)) := by
  unfold hypervisorChecks
  refine ⟨?_, ?_, ?_⟩
  · by_cases ht : o.hypervisor_type = d.hypervisor_type
    · by_cases hv : o.hypervisor_version > d.hypervisor_version
      · simp [ht, hv]
      · simp [ht, hv]
        omega
    · simp [ht]
  · intro h
    simp [h]
  · intro ht hv
    simp [ht, hv]

/-- Concrete instantiations of `hypervisor_compat`: a type mismatch, an
older destination version, and a compatible pair. -/
theorem hypervisor_compat_witness :
    hypervisorChecks ⟨"o", 1, 1, 1, "xen", 5, none⟩ ⟨"d", 1, 1, 1, "qemu", 5, none⟩ =
      .error (.differentHypervisorType "xen" "qemu") ∧
    hypervisorChecks ⟨"o", 1, 1, 1, "qemu", 7, none⟩ ⟨"d", 1, 1, 1, "qemu", 5, none⟩ =
      .error (.olderHypervisorVersion 7 5) ∧
    hypervisorChecks ohostGood dhostGood = .ok () :=
  ⟨(hypervisor_compat _ _).2.1 (by decide),
   (hypervisor_compat _ _).2.2 rfl (by decide),
   (hypervisor_compat _ _).1.mpr ⟨rfl, by decide⟩⟩

/-- C4: when the instance and the destination host both exist, the capacity
check succeeds iff the host totals minus the sums already claimed by the
instances placed on the destination strictly exceed the instance's demand
in every dimension (so exact equality in any dimension is rejected), and on
insufficiency it fails with the error naming the destination and the
instance. -/
theorem has_enough_resource_strict (env : Env) (instance_id : Nat) (dest : String)
    (inst : Instance) (host : Host)
    (hi : env.instances instance_id = some inst)
    (hh : env.hosts dest = some host) :
    (has_enough_resource env instance_id dest = .ok () ↔
      inst.vcpus < host.vcpus - ((env.instancesByHost dest).map Instance.vcpus).sum ∧
      inst.memory_mb <
        host.memory_mb - ((env.instancesByHost dest).map Instance.memory_mb).sum ∧
      inst.local_gb <
        host.local_gb - ((env.instancesByHost dest).map Instance.local_gb).sum) ∧
    (has_enough_resource env instance_id dest ≠ .ok () →
      has_enough_resource env instance_id dest =
        .error (.notEnoughResource dest inst.hostname)) := by
  unfold has_enough_resource
  rw [hi, hh]
  simp only [foldl_sub_eq_sub_sum]
  by_cases hc :
      host.vcpus - ((env.instancesByHost dest).map Instance.vcpus).sum ≤ inst.vcpus ∨
      host.memory_mb - ((env.instancesByHost dest).map Instance.memory_mb).sum ≤
        inst.memory_mb ∨
      host.local_gb - ((env.instancesByHost dest).map Instance.local_gb).sum ≤
        inst.local_gb
  · rw [if_pos hc]
    constructor
    · constructor
      · intro h
        exact absurd h (by simp)
      · intro h
        omega
    · intro _
      rfl
  · rw [if_neg hc]
    push_neg at hc
    constructor
    · constructor
      · intro _
        exact hc
      · intro _
        rfl
    · intro h
      exact absurd rfl h

/-- Concrete instantiations of `has_enough_resource_strict`: the good
snapshot has strict headroom; shrinking the destination's memory total to
exactly the instance's demand flips the check to the resource error. -/
theorem has_enough_resource_strict_witness :
    has_enough_resource envGood 1 "dst" = .ok () ∧
    has_enough_resource
      { envGood with
        hosts := fun n =>
          if n = "dst" then some { dhostGood with memory_mb := 128 }
          else envGood.hosts n } 1 "dst" =
      .error (.notEnoughResource "dst" "i-1") := by
  constructor
  · exact (has_enough_resource_strict envGood 1 "dst" instGood dhostGood rfl rfl).1.mpr
      (by decide)
  · refine (has_enough_resource_strict _ 1 "dst" instGood
      { dhostGood with memory_mb := 128 } rfl rfl).2 ?_
    intro h
    rw [(has_enough_resource_strict _ 1 "dst" instGood
      { dhostGood with memory_mb := 128 } rfl rfl).1] at h
    revert h
    decide

/-- C10: the live-migration operation never fails with an out-of-bounds
access at the `service[0]` selection: whenever the compute-topic membership
check passes, the list filtered to the destination host is non-empty, so
the index error is unreachable on every input. -/
theorem live_migration_no_index_error (env : Env) (iid : Nat) (dest : String) :
    (schedule_live_migration env iid dest).fst ≠ Except.error Err.indexError := by
  cases hpre : preChecks env iid dest with
  | error e =>
    rw [slm_of_preChecks_error env iid dest e hpre]
    intro hcontra
    injection hcontra with h1
    exact preChecks_ne_indexError env iid dest (h1 ▸ hpre)
  | ok w =>
    obtain ⟨inst, src, dh, ci⟩ := w
    cases hrpc : env.compareCpu dest ci with
    | error c =>
      rw [slm_of_rpc_error env iid dest inst src dh ci c hpre hrpc]
      simp
    | ok u =>
      cases u
      cases hcap : has_enough_resource env iid dest with
      | error e =>
        rw [slm_of_cap_error env iid dest inst src dh ci e hpre hrpc hcap]
        intro hcontra
        injection hcontra with h1
        exact has_enough_resource_ne_indexError env iid dest (h1 ▸ hcap)
      | ok u2 =>
        cases u2
        rw [slm_of_all_ok env iid dest inst src dh ci hpre hrpc hcap]
        simp

/-- C6: whenever the operation raises any error (so any precondition,
compatibility, or capacity check failed before the commit step), the
mutation log is empty: no instance-state change and no volume-status
update was issued. -/
theorem no_mutation_on_error (env : Env) (iid : Nat) (dest : String) (e : Err)
    (h : (schedule_live_migration env iid dest).fst = .error e) :
    (schedule_live_migration env iid dest).snd = [] := by
  cases hpre : preChecks env iid dest with
  | error e2 =>
    rw [slm_of_preChecks_error env iid dest e2 hpre]
  | ok w =>
    obtain ⟨inst, src, dh, ci⟩ := w
    cases hrpc : env.compareCpu dest ci with
    | error c =>
      rw [slm_of_rpc_error env iid dest inst src dh ci c hpre hrpc]
    | ok u =>
      cases u
      cases hcap : has_enough_resource env iid dest with
      | error e3 =>
        rw [slm_of_cap_error env iid dest inst src dh ci e3 hpre hrpc hcap]
      | ok u2 =>
        cases u2
        exfalso
        rw [slm_of_all_ok env iid dest inst src dh ci hpre hrpc hcap] at h
        simp at h

/-- Concrete instantiation of `no_mutation_on_error`: a request for an
absent instance issues no mutation. -/
theorem no_mutation_on_error_witness :
    (schedule_live_migration envGood 2 "dst").snd = [] :=
  no_mutation_on_error envGood 2 "dst" (.instanceNotFound 2) rfl

/-- C1: the precondition chain checks its rules in the fixed order —
instance exists, combined running state, destination host exists,
destination differs from source, destination among the compute-topic
services, destination service alive, hypervisor type equal, destination
version not older, origin cpu_info of the expected shape — and
short-circuits: whenever the rules before a given rule hold and that rule
is violated, the operation raises exactly that rule's error, whatever the
rest of the input (so no later check can contribute its error). -/
theorem live_migration_check_order (env : Env) (instance_id : Nat) (dest : String) :
    (env.instances instance_id = none →
      (schedule_live_migration env instance_id dest).fst =
        .error (.instanceNotFound instance_id)) ∧
    (∀ inst, env.instances instance_id = some inst →
      (power_state.RUNNING ≠ inst.state ∨ "running" ≠ inst.state_description) →
      (schedule_live_migration env instance_id dest).fst =
        .error (.notRunning inst.hostname)) ∧
    (∀ inst, env.instances instance_id = some inst →
      power_state.RUNNING = inst.state → "running" = inst.state_description →
      env.hosts dest = none →
      (schedule_live_migration env instance_id dest).fst =
        .error (.hostNotFound dest)) ∧
    (∀ inst dhost, env.instances instance_id = some inst →
      power_state.RUNNING = inst.state → "running" = inst.state_description →
      env.hosts dest = some dhost →
      dest = inst.host →
      (schedule_live_migration env instance_id dest).fst =
        .error (.sameHost dest inst.hostname)) ∧
    (∀ inst dhost, env.instances instance_id = some inst →
      power_state.RUNNING = inst.state → "running" = inst.state_description →
      env.hosts dest = some dhost →
      dest ≠ inst.host →
      ((env.servicesByTopic "compute").map Service.host).contains dest = false →
      (schedule_live_migration env instance_id dest).fst =
        .error (.notComputeNode dest)) ∧
    (∀ inst dhost svc, env.instances instance_id = some inst →
      power_state.RUNNING = inst.state → "running" = inst.state_description →
      env.hosts dest = some dhost →
      dest ≠ inst.host →
      ((env.servicesByTopic "compute").map Service.host).contains dest = true →
      ((env.servicesByTopic "compute").filter (fun s => s.host == dest)).head? = some svc →
      service_is_up env.now env.service_down_time svc = false →
      (schedule_live_migration env instance_id dest).fst =
        .error (.destNotAlive dest)) ∧
    (∀ inst dhost svc ohost, env.instances instance_id = some inst →
      power_state.RUNNING = inst.state → "running" = inst.state_description →
      env.hosts dest = some dhost →
      dest ≠ inst.host →
      ((env.servicesByTopic "compute").map Service.host).contains dest = true →
      ((env.servicesByTopic "compute").filter (fun s => s.host == dest)).head? = some svc →
      service_is_up env.now env.service_down_time svc = true →
      env.hosts inst.launched_on = some ohost →
      ohost.hypervisor_type ≠ dhost.hypervisor_type →
      (schedule_live_migration env instance_id dest).fst =
        .error (.differentHypervisorType ohost.hypervisor_type dhost.hypervisor_type)) ∧
    (∀ inst dhost svc ohost, env.instances instance_id = some inst →
      power_state.RUNNING = inst.state → "running" = inst.state_description →
      env.hosts dest = some dhost →
      dest ≠ inst.host →
      ((env.servicesByTopic "compute").map Service.host).contains dest = true →
      ((env.servicesByTopic "compute").filter (fun s => s.host == dest)).head? = some svc →
      service_is_up env.now env.service_down_time svc = true →
      env.hosts inst.launched_on = some ohost →
      ohost.hypervisor_type = dhost.hypervisor_type →
      dhost.hypervisor_version < ohost.hypervisor_version →
      (schedule_live_migration env instance_id dest).fst =
        .error (.olderHypervisorVersion ohost.hypervisor_version dhost.hypervisor_version)) ∧
    (∀ inst dhost svc ohost, env.instances instance_id = some inst →
      power_state.RUNNING = inst.state → "running" = inst.state_description →
      env.hosts dest = some dhost →
      dest ≠ inst.host →
      ((env.servicesByTopic "compute").map Service.host).contains dest = true →
      ((env.servicesByTopic "compute").filter (fun s => s.host == dest)).head? = some svc →
      service_is_up env.now env.service_down_time svc = true →
      env.hosts inst.launched_on = some ohost →
      ohost.hypervisor_type = dhost.hypervisor_type →
      ¬ dhost.hypervisor_version < ohost.hypervisor_version →
      ohost.cpu_info = none →
      (schedule_live_migration env instance_id dest).fst =
        .error (.missingCpuInfo inst.launched_on)) := by
  refine ⟨?_, ?_, ?_, ?_, ?_, ?_, ?_, ?_, ?_⟩
  · intro h1
    have hpre : preChecks env instance_id dest = .error (.instanceNotFound instance_id) := by
      unfold preChecks
      rw [h1]
    rw [slm_of_preChecks_error env instance_id dest _ hpre]
  · intro inst h1 hviol
    have hpre : preChecks env instance_id dest = .error (.notRunning inst.hostname) := by
      unfold preChecks
      rw [h1]
      dsimp only
      rw [if_pos hviol]
    rw [slm_of_preChecks_error env instance_id dest _ hpre]
  · intro inst h1 h2 h3 hd
    have hpre : preChecks env instance_id dest = .error (.hostNotFound dest) := by
      unfold preChecks
      rw [h1]
      dsimp only
      rw [if_neg (by simp [← h2, ← h3])]
      rw [hd]
    rw [slm_of_preChecks_error env instance_id dest _ hpre]
  · intro inst dhost h1 h2 h3 hd hsame
    have hpre : preChecks env instance_id dest = .error (.sameHost dest inst.hostname) := by
      unfold preChecks
      rw [h1]
      dsimp only
      rw [if_neg (by simp [← h2, ← h3])]
      rw [hd]
      dsimp only
      rw [if_pos hsame]
    rw [slm_of_preChecks_error env instance_id dest _ hpre]
  · intro inst dhost h1 h2 h3 hd hne hc
    have hpre : preChecks env instance_id dest = .error (.notComputeNode dest) := by
      unfold preChecks
      rw [h1]
      dsimp only
      rw [if_neg (by simp [← h2, ← h3])]
      rw [hd]
      dsimp only
      rw [if_neg hne]
      rw [if_pos (by simpa using hc)]
    rw [slm_of_preChecks_error env instance_id dest _ hpre]
  · intro inst dhost svc h1 h2 h3 hd hne hc hhead hup
    have hpre : preChecks env instance_id dest = .error (.destNotAlive dest) := by
      unfold preChecks
      rw [h1]
      dsimp only
      rw [if_neg (by simp [← h2, ← h3])]
      rw [hd]
      dsimp only
      rw [if_neg hne]
      rw [if_neg (by simpa using hc)]
      rw [hhead]
      dsimp only
      rw [if_pos (by simp [hup])]
    rw [slm_of_preChecks_error env instance_id dest _ hpre]
  · intro inst dhost svc ohost h1 h2 h3 hd hne hc hhead hup ho hty
    have hhc : hypervisorChecks ohost dhost =
        .error (.differentHypervisorType ohost.hypervisor_type dhost.hypervisor_type) := by
      unfold hypervisorChecks
      rw [if_pos hty]
    have hpre : preChecks env instance_id dest =
        .error (.differentHypervisorType ohost.hypervisor_type dhost.hypervisor_type) := by
      unfold preChecks
      rw [h1]
      dsimp only
      rw [if_neg (by simp [← h2, ← h3])]
      rw [hd]
      dsimp only
      rw [if_neg hne]
      rw [if_neg (by simpa using hc)]
      rw [hhead]
      dsimp only
      rw [if_neg (by simp [hup])]
      rw [ho]
      dsimp only
      rw [hhc]
    rw [slm_of_preChecks_error env instance_id dest _ hpre]
  · intro inst dhost svc ohost h1 h2 h3 hd hne hc hhead hup ho hty hv
    have hhc : hypervisorChecks ohost dhost =
        .error (.olderHypervisorVersion ohost.hypervisor_version dhost.hypervisor_version) := by
      unfold hypervisorChecks
      rw [if_neg (by simp [hty])]
      rw [if_pos hv]
    have hpre : preChecks env instance_id dest =
        .error (.olderHypervisorVersion ohost.hypervisor_version dhost.hypervisor_version) := by
      unfold preChecks
      rw [h1]
      dsimp only
      rw [if_neg (by simp [← h2, ← h3])]
      rw [hd]
      dsimp only
      rw [if_neg hne]
      rw [if_neg (by simpa using hc)]
      rw [hhead]
      dsimp only
      rw [if_neg (by simp [hup])]
      rw [ho]
      dsimp only
      rw [hhc]
    rw [slm_of_preChecks_error env instance_id dest _ hpre]
  · intro inst dhost svc ohost h1 h2 h3 hd hne hc hhead hup ho hty hv hcpu
    have hhc : hypervisorChecks ohost dhost = .ok () := by
      unfold hypervisorChecks
      rw [if_neg (by simp [hty])]
      rw [if_neg hv]
    have hpre : preChecks env instance_id dest =
        .error (.missingCpuInfo inst.launched_on) := by
      unfold preChecks
      rw [h1]
      dsimp only
      rw [if_neg (by simp [← h2, ← h3])]
      rw [hd]
      dsimp only
      rw [if_neg hne]
      rw [if_neg (by simpa using hc)]
      rw [hhead]
      dsimp only
      rw [if_neg (by simp [hup])]
      rw [ho]
      dsimp only
      rw [hhc]
      dsimp only
      rw [hcpu]
    rw [slm_of_preChecks_error env instance_id dest _ hpre]

/-- Concrete instantiations of `live_migration_check_order`, one per rule:
each snapshot violates the given rule (and possibly later ones) and the
operation reports exactly that rule's error. -/
theorem live_migration_check_order_witness :
    (schedule_live_migration envGood 2 "dst").fst = .error (.instanceNotFound 2) ∧
    (schedule_live_migration envNotRunning 1 "dst").fst = .error (.notRunning "i-1") ∧
    (schedule_live_migration envGood 1 "ghost").fst = .error (.hostNotFound "ghost") ∧
    (schedule_live_migration envGood 1 "src").fst = .error (.sameHost "src" "i-1") ∧
    (schedule_live_migration envGood 1 "other").fst = .error (.notComputeNode "other") ∧
    (schedule_live_migration envDown 1 "dst").fst = .error (.destNotAlive "dst") ∧
    (schedule_live_migration envXen 1 "dst").fst =
      .error (.differentHypervisorType "xen" "qemu") ∧
    (schedule_live_migration envNewer 1 "dst").fst =
      .error (.olderHypervisorVersion 20 12) ∧
    (schedule_live_migration envNoCpu 1 "dst").fst = .error (.missingCpuInfo "orig") :=
  ⟨(live_migration_check_order envGood 2 "dst").1 rfl,
   (live_migration_check_order envNotRunning 1 "dst").2.1 instShut rfl
     (Or.inl (by decide)),
   (live_migration_check_order envGood 1 "ghost").2.2.1 instGood rfl rfl rfl rfl,
   (live_migration_check_order envGood 1 "src").2.2.2.1 instGood srcHostGood rfl rfl rfl
     rfl rfl,
   (live_migration_check_order envGood 1 "other").2.2.2.2.1 instGood otherHost rfl rfl
     rfl rfl (by decide) rfl,
   (live_migration_check_order envDown 1 "dst").2.2.2.2.2.1 instGood dhostGood
     svcDstStale rfl rfl rfl rfl (by decide) rfl rfl (by decide),
   (live_migration_check_order envXen 1 "dst").2.2.2.2.2.2.1 instGood dhostGood svcDst
     { ohostGood with hypervisor_type := "xen" } rfl rfl rfl rfl (by decide) rfl rfl
     (by decide) rfl (by decide),
   (live_migration_check_order envNewer 1 "dst").2.2.2.2.2.2.2.1 instGood dhostGood
     svcDst { ohostGood with hypervisor_version := 20 } rfl rfl rfl rfl (by decide) rfl
     rfl (by decide) rfl rfl (by decide),
   (live_migration_check_order envNoCpu 1 "dst").2.2.2.2.2.2.2.2 instGood dhostGood
     svcDst { ohostGood with cpu_info := none } rfl rfl rfl rfl (by decide) rfl rfl
     (by decide) rfl rfl (by decide) rfl⟩

/-- The volume loop updates the volumes before the first missing one and
stops there. -/
lemma volumeLoop_append_missing (env : Env) (pre post : List Volume) (vol : Volume)
    (hall : ∀ v ∈ pre, env.volumeExists v.id = true)
    (hmiss : env.volumeExists vol.id = false) :
    volumeLoop env (pre ++ vol :: post) =
      pre.map (fun v => Mut.volumeUpdateStatus v.id "migrating") := by
  induction pre with
  | nil => simp [volumeLoop, hmiss]
  | cons a t ih =>
    have ha : env.volumeExists a.id = true := hall a (by simp)
    simp only [List.cons_append, volumeLoop, ha, if_true, List.map_cons]
    exact congrArg (fun x => Mut.volumeUpdateStatus a.id "migrating" :: x)
      (ih (fun v hv => hall v (by simp [hv])))

/-- The volume loop updates every volume when all of them exist. -/
lemma volumeLoop_all (env : Env) (vols : List Volume)
    (hall : ∀ v ∈ vols, env.volumeExists v.id = true) :
    volumeLoop env vols =
      vols.map (fun v => Mut.volumeUpdateStatus v.id "migrating") := by
  induction vols with
  | nil => rfl
  | cons a t ih =>
    have ha : env.volumeExists a.id = true := hall a (by simp)
    simp only [volumeLoop, ha, if_true, List.map_cons]
    rw [ih (fun v hv => hall v (by simp [hv]))]

/-- On success the precondition sequence returns the instance's current
host as the `src` component. -/
lemma preChecks_ok_src (env : Env) (iid : Nat) (dest : String)
    (inst : Instance) (src : String) (dh : Host) (ci : String)
    (h : preChecks env iid dest = .ok (inst, src, dh, ci)) :
    src = inst.host := by
  unfold preChecks at h
  repeat' split at h
  all_goals simp at h
  obtain ⟨h1, h2, h3, h4⟩ := h
  subst h1
  subst h2
  rfl

/-- C2 counterexample: with volumes 7 and 8 attached and volume 7 gone
from the volumes table, every check passes and the commit still succeeds,
but the loop aborts at volume 7, so volume 8 — a remaining attached volume
that still exists — is never set to migrating, contrary to the claim that
iteration continues with all remaining volumes. -/
theorem volume_iteration_continues_claim_false :
    schedule_live_migration envVol7Gone 1 "dst" =
      (.ok "src", [.setInstanceState 1 power_state.PAUSED "migrating"]) ∧
    Mut.volumeUpdateStatus 8 "migrating" ∉
      (schedule_live_migration envVol7Gone 1 "dst").snd :=
  ⟨rfl, by decide⟩

/-- C2 (amended): a volume not-found during the commit loop is swallowed —
the commit does not fail, the operation returns the source host and the
instance-state change is issued — but iteration stops at the first missing
volume: the volumes before it have their status set to migrating, while
the missing volume and every volume after it are not updated. -/
theorem volume_notfound_swallowed_but_stops (env : Env) (iid : Nat) (dest : String)
    (inst : Instance) (src : String) (dh : Host) (ci : String)
    (pre post : List Volume) (vol : Volume)
    (hpre : preChecks env iid dest = .ok (inst, src, dh, ci))
    (hrpc : env.compareCpu dest ci = .ok ())
    (hcap : has_enough_resource env iid dest = .ok ())
    (hvols : env.volumesByInstance iid = pre ++ vol :: post)
    (hall : ∀ v ∈ pre, env.volumeExists v.id = true)
    (hmiss : env.volumeExists vol.id = false) :
    schedule_live_migration env iid dest =
      (.ok src,
       Mut.setInstanceState iid power_state.PAUSED "migrating"
         :: pre.map (fun v => Mut.volumeUpdateStatus v.id "migrating")) := by
  rw [slm_of_all_ok env iid dest inst src dh ci hpre hrpc hcap, hvols,
    volumeLoop_append_missing env pre post vol hall hmiss]

/-- Concrete instantiation of `volume_notfound_swallowed_but_stops`:
volume 8 missing after volume 7 — volume 7 is updated, the commit
succeeds, and nothing is issued for volume 8. -/
theorem volume_notfound_swallowed_but_stops_witness :
    schedule_live_migration envVol8Gone 1 "dst" =
      (.ok "src",
       [Mut.setInstanceState 1 power_state.PAUSED "migrating",
        Mut.volumeUpdateStatus 7 "migrating"]) :=
  volume_notfound_swallowed_but_stops envVol8Gone 1 "dst" instGood "src" dhostGood
    "cpu-xml" [vol7] [] vol8 rfl rfl rfl rfl (by decide) rfl

/-- C3 counterexample: with the remote compare-cpu call failing with cause
"boom" on an otherwise-valid request, the surfaced error is the name error
produced by the handler's logging slip: no wrapping error kind is raised,
and the surfaced error carries neither the cause nor the destination,
source, or instance identifiers. -/
theorem remote_failure_wrapped_claim_false :
    (schedule_live_migration envRpcFail 1 "dst").fst = .error (.nameError "ret") ∧
    "boom" ∉ (Err.nameError "ret").payloadStrings ∧
    "dst" ∉ (Err.nameError "ret").payloadStrings ∧
    "src" ∉ (Err.nameError "ret").payloadStrings ∧
    "i-1" ∉ (Err.nameError "ret").payloadStrings :=
  ⟨rfl, by decide, by decide, by decide, by decide⟩

/-- C3 (amended): every rpc.RemoteError from the remote compare-cpu call
aborts the migration before any state mutation, but the error is not
re-wrapped with the destination, source, and instance identifiers: the
handler's logging statement references the undefined name `ret`, so the
surfaced error is a NameError whose only payload is that name. -/
theorem remote_failure_aborts_unwrapped (env : Env) (iid : Nat) (dest : String)
    (inst : Instance) (src : String) (dh : Host) (ci : String) (cause : String)
    (hpre : preChecks env iid dest = .ok (inst, src, dh, ci))
    (hrpc : env.compareCpu dest ci = .error cause) :
    (schedule_live_migration env iid dest).fst = .error (.nameError "ret") ∧
    (schedule_live_migration env iid dest).snd = [] ∧
    (Err.nameError "ret").payloadStrings = ["ret"] := by
  rw [slm_of_rpc_error env iid dest inst src dh ci cause hpre hrpc]
  exact ⟨rfl, rfl, rfl⟩

/-- Concrete instantiation of `remote_failure_aborts_unwrapped` at the
failing-probe snapshot. -/
theorem remote_failure_aborts_unwrapped_witness :
    (schedule_live_migration envRpcFail 1 "dst").fst = .error (.nameError "ret") :=
  (remote_failure_aborts_unwrapped envRpcFail 1 "dst" instGood "src" dhostGood
    "cpu-xml" "boom" rfl rfl).1

/-- C7 counterexample: a snapshot on which every listed check passes but
whose single attached volume is gone from the volumes table: the operation
still succeeds and returns the source host, yet the attached volume's
status is never set to migrating, contrary to the claim that each attached
volume's status is set. -/
theorem success_updates_every_volume_claim_false :
    schedule_live_migration envOnlyVolGone 1 "dst" =
      (.ok "src", [.setInstanceState 1 power_state.PAUSED "migrating"]) ∧
    Mut.volumeUpdateStatus 7 "migrating" ∉
      (schedule_live_migration envOnlyVolGone 1 "dst").snd :=
  ⟨rfl, by decide⟩

/-- C7 (amended): when every check passes and additionally every attached
volume still exists in the registry, the operation sets the instance's
state to the paused/"migrating" combined state, sets each attached
volume's status to "migrating", and returns the instance's source host
identifier. -/
theorem live_migration_success (env : Env) (iid : Nat) (dest : String)
    (inst : Instance) (src : String) (dh : Host) (ci : String)
    (hpre : preChecks env iid dest = .ok (inst, src, dh, ci))
    (hrpc : env.compareCpu dest ci = .ok ())
    (hcap : has_enough_resource env iid dest = .ok ())
    (hall : ∀ v ∈ env.volumesByInstance iid, env.volumeExists v.id = true) :
    schedule_live_migration env iid dest =
      (.ok src,
       Mut.setInstanceState iid power_state.PAUSED "migrating"
         :: (env.volumesByInstance iid).map
              (fun v => Mut.volumeUpdateStatus v.id "migrating")) ∧
    src = inst.host := by
  constructor
  · rw [slm_of_all_ok env iid dest inst src dh ci hpre hrpc hcap,
      volumeLoop_all env _ hall]
  · exact preChecks_ok_src env iid dest inst src dh ci hpre

/-- Concrete instantiation of `live_migration_success` at the all-good
snapshot: both volumes are updated and the source host is returned. -/
theorem live_migration_success_witness :
    schedule_live_migration envGood 1 "dst" =
      (.ok "src",
       [Mut.setInstanceState 1 power_state.PAUSED "migrating",
        Mut.volumeUpdateStatus 7 "migrating",
        Mut.volumeUpdateStatus 8 "migrating"]) ∧
    "src" = instGood.host :=
  live_migration_success envGood 1 "dst" instGood "src" dhostGood "cpu-xml"
    rfl rfl rfl (by decide)

end Nova
